import Mathlib

/-!
Shallow embedding of the ADS1220 SPI driver (src/src/lib.rs).

Bytes are modelled as `Nat` with an explicit `% 256` at every u8 type
boundary; the u8 bitwise complement `!m` is modelled by `not8 m = 255 ^^^ m`.
The SPI bus is modelled by an abstract `Transport`: a state machine whose
`step` executes one atomic transaction (an ordered list of `BusOp`
sub-operations, mirroring `embedded_hal_async::spi::Operation`) and either
returns the captured rx bytes and a new device state, or an opaque
transport error. Every driver method is embedded as a function from a
transport and a driver state to an `Outcome`: the returned
`Result`, the driver state after the call (the cached `m_config_regN`
mirror plus the transport state), and the trace of transactions issued,
in order, including a final failing transaction.
-/

namespace ADS1220

/-- One SPI sub-operation, as in `embedded_hal_async::spi::Operation`. -/
inductive BusOp where
  | delayNs (ns : Nat)
  | write (tx : List Nat)
  | transfer (tx : List Nat)
  | transferInPlace (buf : List Nat)
  | read (len : Nat)
deriving DecidableEq, Repr

/-- One atomic SPI transaction: an ordered list of sub-operations executed
under a single chip-select assertion. -/
abbrev Txn := List BusOp

/-- Number of rx bytes a sub-operation captures. -/
def rxLen : BusOp → Nat
  | .delayNs _ => 0
  | .write _ => 0
  | .transfer tx => tx.length
  | .transferInPlace buf => buf.length
  | .read n => n

/-- Number of rx bytes a whole transaction captures. -/
def txnRxLen (t : Txn) : Nat := (t.map rxLen).sum

/-- The bus transport: a state machine over device states `S` with opaque
error type `E`; `step` runs one transaction atomically. -/
structure Transport (S E : Type) where
  step : S → Txn → Except E (List Nat × S)

/-- The four cached configuration register bytes
(`m_config_reg0` .. `m_config_reg3`). -/
structure Regs where
  reg0 : Nat
  reg1 : Nat
  reg2 : Nat
  reg3 : Nat
deriving DecidableEq, Repr

/-- The full driver-visible state: the cached register mirror plus the
transport's device state. -/
structure DriverState (S : Type) where
  regs : Regs
  dev : S
deriving DecidableEq, Repr

/-- The result of one driver call: the returned `Result`, the state after
the call, and the trace of transactions issued in order (a failing
transaction is included as the last element). -/
structure Outcome (S E α : Type) where
  res : Except E α
  state : DriverState S
  trace : List Txn

/-- u8 bitwise complement `!m`. -/
def not8 (m : Nat) : Nat := 255 ^^^ (m % 256)

-- ADS1220 SPI commands (src constants, same names).
def SPI_MASTER_DUMMY : Nat := 0xFF
def RESET : Nat := 0x06
def START : Nat := 0x08
def WREG : Nat := 0x40
def RREG : Nat := 0x20

-- Config register addresses.
def CONFIG_REG0_ADDRESS : Nat := 0x00
def CONFIG_REG1_ADDRESS : Nat := 0x01
def CONFIG_REG2_ADDRESS : Nat := 0x02
def CONFIG_REG3_ADDRESS : Nat := 0x03

-- Field masks.
def REG_CONFIG3_IDAC1_ROUTING_MASK : Nat := 0xE0
def REG_CONFIG3_IDAC2_ROUTING_MASK : Nat := 0x1C
def REG_CONFIG2_VREF_MASK : Nat := 0xC0
def REG_CONFIG2_FIR_MASK : Nat := 0x30
def REG_CONFIG2_IDAC_CURRENT_MASK : Nat := 0x07
def REG_CONFIG1_MODE_MASK : Nat := 0x18
def REG_CONFIG1_DR_MASK : Nat := 0xE0
def REG_CONFIG0_PGA_GAIN_MASK : Nat := 0x0E
def REG_CONFIG0_MUX_MASK : Nat := 0xF0

-- Data-rate codes.
def DR_20SPS : Nat := 0x00
def DR_45SPS : Nat := 0x02
def DR_90SPS : Nat := 0x04
def DR_175SPS : Nat := 0x06
def DR_330SPS : Nat := 0x08
def DR_600SPS : Nat := 0xA0
def DR_1000SPS : Nat := 0xC0

-- PGA gain codes.
def PGA_GAIN_1 : Nat := 0x00
def PGA_GAIN_2 : Nat := 0x02
def PGA_GAIN_4 : Nat := 0x04
def PGA_GAIN_8 : Nat := 0x06

-- Vref codes.
def VREF_MASK : Nat := (1 <<< 6) ||| (1 <<< 7)
def VREF_INT : Nat := 0 <<< 6
def VREF_EXT : Nat := 1 <<< 6

variable {S E α β : Type}

/-- Run one transaction; on success the driver keeps its register cache and
adopts the transport's new device state, on failure the state is unchanged.
The transaction is recorded in the trace either way (it was issued). -/
def runTxn (T : Transport S E) (st : DriverState S) (t : Txn) :
    Outcome S E (List Nat) :=
  match T.step st.dev t with
  | .ok (rx, s) => ⟨.ok rx, ⟨st.regs, s⟩, [t]⟩
  | .error e => ⟨.error e, st, [t]⟩

/-- Map the returned value of an outcome. -/
def Outcome.mapv (o : Outcome S E α) (f : α → β) : Outcome S E β :=
  ⟨o.res.map f, o.state, o.trace⟩

/-- Sequencing with early return, modelling `?`: on error the error,
state and trace so far are returned; on success the continuation runs on
the new state and the traces are concatenated. -/
def seq (o : Outcome S E α) (f : α → DriverState S → Outcome S E β) :
    Outcome S E β :=
  match o.res with
  | .error e => ⟨.error e, o.state, o.trace⟩
  | .ok a =>
    let o2 := f a o.state
    ⟨o2.res, o2.state, o.trace ++ o2.trace⟩

/-- The transaction `write_register` issues:
`[DelayNs(50), Write([WREG | (address << 2)]), TransferInPlace([value])]`. -/
def writeRegTxn (address value : Nat) : Txn :=
  [.delayNs 50, .write [WREG ||| ((address <<< 2) % 256)],
   .transferInPlace [value % 256]]

/-- The transaction `read_register` issues:
`[DelayNs(50), Write([RREG | (address << 2)]), Transfer(result, [0xFF])]`. -/
def readRegTxn (address : Nat) : Txn :=
  [.delayNs 50, .write [RREG ||| ((address <<< 2) % 256)],
   .transfer [SPI_MASTER_DUMMY]]

/-- Embeds `fn new(spi)`: all four cached register bytes start at 0x00. -/
def new (s : S) : DriverState S := ⟨⟨0x00, 0x00, 0x00, 0x00⟩, s⟩

/-- Embeds `write_register(address, value)`. -/
def write_register (T : Transport S E) (st : DriverState S)
    (address value : Nat) : Outcome S E Unit :=
  (runTxn T st (writeRegTxn address value)).mapv (fun _ => ())

/-- Embeds `read_register(address)`: returns `result[0]`, where `result` is the
rx buffer of the full-duplex exchange, initialized to `[0x00]`. -/
def read_register (T : Transport S E) (st : DriverState S)
    (address : Nat) : Outcome S E Nat :=
  (runTxn T st (readRegTxn address)).mapv (fun rx => rx.headD 0 % 256)

/-- The transaction `spi_command(data)` issues: `[DelayNs(50), Write([data])]`. -/
def spiCmdTxn (data : Nat) : Txn := [.delayNs 50, .write [data % 256]]

/-- Embeds `spi_command(data)`. -/
def spi_command (T : Transport S E) (st : DriverState S) (data : Nat) :
    Outcome S E Unit :=
  (runTxn T st (spiCmdTxn data)).mapv (fun _ => ())

/-- Embeds `reset()`. -/
def reset (T : Transport S E) (st : DriverState S) : Outcome S E Unit :=
  spi_command T st RESET

/-- Embeds `start_conv()`. -/
def start_conv (T : Transport S E) (st : DriverState S) : Outcome S E Unit :=
  spi_command T st START

/-- The post-reset settle transaction `begin` issues: `[DelayNs(50000)]`. -/
def settleTxn : Txn := [.delayNs 50000]

/-- Embeds `begin()`: reset, 50000 ns settle, assign the four cached registers to
the defaults 0x00/0x04/0x10/0x00, then write them to registers 0..3; any
failing step aborts the rest via `?`. -/
def begin (T : Transport S E) (st : DriverState S) : Outcome S E Unit :=
  seq (reset T st) (fun _ st1 =>
  seq ((runTxn T st1 settleTxn).mapv (fun _ => ())) (fun _ st2 =>
  let st3 : DriverState S := ⟨⟨0x00, 0x04, 0x10, 0x00⟩, st2.dev⟩
  seq (write_register T st3 CONFIG_REG0_ADDRESS st3.regs.reg0) (fun _ st4 =>
  seq (write_register T st4 CONFIG_REG1_ADDRESS st4.regs.reg1) (fun _ st5 =>
  seq (write_register T st5 CONFIG_REG2_ADDRESS st5.regs.reg2) (fun _ st6 =>
  write_register T st6 CONFIG_REG3_ADDRESS st6.regs.reg3)))))

/-- Embeds `select_mux_channels(channels_conf)`:
`reg0 &= !MUX_MASK; reg0 |= channels_conf; write_register(0, reg0)`. -/
def select_mux_channels (T : Transport S E) (st : DriverState S)
    (channels_conf : Nat) : Outcome S E Unit :=
  let r0 := (st.regs.reg0 &&& not8 REG_CONFIG0_MUX_MASK) ||| (channels_conf % 256)
  write_register T { st with regs := { st.regs with reg0 := r0 } }
    CONFIG_REG0_ADDRESS r0

/-- Embeds `set_pga_gain(pga_gain)`. -/
def set_pga_gain (T : Transport S E) (st : DriverState S)
    (pga_gain : Nat) : Outcome S E Unit :=
  let r0 := (st.regs.reg0 &&& not8 REG_CONFIG0_PGA_GAIN_MASK) ||| (pga_gain % 256)
  write_register T { st with regs := { st.regs with reg0 := r0 } }
    CONFIG_REG0_ADDRESS r0

/-- Embeds `pga_on()`: `reg0 &= !(1 << 0)`. -/
def pga_on (T : Transport S E) (st : DriverState S) : Outcome S E Unit :=
  let r0 := st.regs.reg0 &&& not8 (1 <<< 0)
  write_register T { st with regs := { st.regs with reg0 := r0 } }
    CONFIG_REG0_ADDRESS r0

/-- Embeds `pga_off()`: `reg0 |= !(1 << 0)` (as in the source: OR with the
complement). -/
def pga_off (T : Transport S E) (st : DriverState S) : Outcome S E Unit :=
  let r0 := st.regs.reg0 ||| not8 (1 <<< 0)
  write_register T { st with regs := { st.regs with reg0 := r0 } }
    CONFIG_REG0_ADDRESS r0

/-- Embeds `set_data_rate(data_rate)`. -/
def set_data_rate (T : Transport S E) (st : DriverState S)
    (data_rate : Nat) : Outcome S E Unit :=
  let r1 := (st.regs.reg1 &&& not8 REG_CONFIG1_DR_MASK) ||| (data_rate % 256)
  write_register T { st with regs := { st.regs with reg1 := r1 } }
    CONFIG_REG1_ADDRESS r1

/-- Embeds `set_operation_mode(mode)`. -/
def set_operation_mode (T : Transport S E) (st : DriverState S)
    (mode : Nat) : Outcome S E Unit :=
  let r1 := (st.regs.reg1 &&& not8 REG_CONFIG1_MODE_MASK) ||| (mode % 256)
  write_register T { st with regs := { st.regs with reg1 := r1 } }
    CONFIG_REG1_ADDRESS r1

/-- Embeds `set_conv_mode_single_shot()`: `reg1 |= !(1 << 2)` (as in the source:
OR with the complement). -/
def set_conv_mode_single_shot (T : Transport S E) (st : DriverState S) :
    Outcome S E Unit :=
  let r1 := st.regs.reg1 ||| not8 (1 <<< 2)
  write_register T { st with regs := { st.regs with reg1 := r1 } }
    CONFIG_REG1_ADDRESS r1

/-- Embeds `set_conv_mode_continuous()`: `reg1 |= 1 << 2`. -/
def set_conv_mode_continuous (T : Transport S E) (st : DriverState S) :
    Outcome S E Unit :=
  let r1 := st.regs.reg1 ||| (1 <<< 2)
  write_register T { st with regs := { st.regs with reg1 := r1 } }
    CONFIG_REG1_ADDRESS r1

/-- Embeds `temp_sensor_mode_disable()`: `reg1 &= !(1 << 1)`. -/
def temp_sensor_mode_disable (T : Transport S E) (st : DriverState S) :
    Outcome S E Unit :=
  let r1 := st.regs.reg1 &&& not8 (1 <<< 1)
  write_register T { st with regs := { st.regs with reg1 := r1 } }
    CONFIG_REG1_ADDRESS r1

/-- Embeds `temp_sensor_mode_enable()`: `reg1 |= 1 << 1`. -/
def temp_sensor_mode_enable (T : Transport S E) (st : DriverState S) :
    Outcome S E Unit :=
  let r1 := st.regs.reg1 ||| (1 <<< 1)
  write_register T { st with regs := { st.regs with reg1 := r1 } }
    CONFIG_REG1_ADDRESS r1

/-- Embeds `current_sources_off()`: `reg1 &= !(1 << 0)`. -/
def current_sources_off (T : Transport S E) (st : DriverState S) :
    Outcome S E Unit :=
  let r1 := st.regs.reg1 &&& not8 (1 <<< 0)
  write_register T { st with regs := { st.regs with reg1 := r1 } }
    CONFIG_REG1_ADDRESS r1

/-- Embeds `current_sources_on()`: `reg1 |= 1 << 0`. -/
def current_sources_on (T : Transport S E) (st : DriverState S) :
    Outcome S E Unit :=
  let r1 := st.regs.reg1 ||| (1 <<< 0)
  write_register T { st with regs := { st.regs with reg1 := r1 } }
    CONFIG_REG1_ADDRESS r1

/-- Embeds `set_vref(vref)`. -/
def set_vref (T : Transport S E) (st : DriverState S) (vref : Nat) :
    Outcome S E Unit :=
  let r2 := (st.regs.reg2 &&& not8 REG_CONFIG2_VREF_MASK) ||| (vref % 256)
  write_register T { st with regs := { st.regs with reg2 := r2 } }
    CONFIG_REG2_ADDRESS r2

/-- Embeds `set_fir_filter(filter)`. -/
def set_fir_filter (T : Transport S E) (st : DriverState S) (filter : Nat) :
    Outcome S E Unit :=
  let r2 := (st.regs.reg2 &&& not8 REG_CONFIG2_FIR_MASK) ||| (filter % 256)
  write_register T { st with regs := { st.regs with reg2 := r2 } }
    CONFIG_REG2_ADDRESS r2

/-- Embeds `low_side_switch_open()`: `reg2 &= !(1 << 3)`. -/
def low_side_switch_open (T : Transport S E) (st : DriverState S) :
    Outcome S E Unit :=
  let r2 := st.regs.reg2 &&& not8 (1 <<< 3)
  write_register T { st with regs := { st.regs with reg2 := r2 } }
    CONFIG_REG2_ADDRESS r2

/-- Embeds `low_side_switch_closed()`: `reg2 |= 1 << 3`. -/
def low_side_switch_closed (T : Transport S E) (st : DriverState S) :
    Outcome S E Unit :=
  let r2 := st.regs.reg2 ||| (1 <<< 3)
  write_register T { st with regs := { st.regs with reg2 := r2 } }
    CONFIG_REG2_ADDRESS r2

/-- Embeds `set_idac_current(idac_current)`. -/
def set_idac_current (T : Transport S E) (st : DriverState S)
    (idac_current : Nat) : Outcome S E Unit :=
  let r2 := (st.regs.reg2 &&& not8 REG_CONFIG2_IDAC_CURRENT_MASK) |||
    (idac_current % 256)
  write_register T { st with regs := { st.regs with reg2 := r2 } }
    CONFIG_REG2_ADDRESS r2

/-- Embeds `set_idac1_route(idac1_routing)`. -/
def set_idac1_route (T : Transport S E) (st : DriverState S)
    (idac1_routing : Nat) : Outcome S E Unit :=
  let r3 := (st.regs.reg3 &&& not8 REG_CONFIG3_IDAC1_ROUTING_MASK) |||
    (idac1_routing % 256)
  write_register T { st with regs := { st.regs with reg3 := r3 } }
    CONFIG_REG3_ADDRESS r3

/-- Embeds `set_idac2_route(idac2_routing)`. -/
def set_idac2_route (T : Transport S E) (st : DriverState S)
    (idac2_routing : Nat) : Outcome S E Unit :=
  let r3 := (st.regs.reg3 &&& not8 REG_CONFIG3_IDAC2_ROUTING_MASK) |||
    (idac2_routing % 256)
  write_register T { st with regs := { st.regs with reg3 := r3 } }
    CONFIG_REG3_ADDRESS r3

/-- Embeds `set_drdy_mode_default()`: `reg3 &= !(1 << 3)` (bit 3, as in the
source). -/
def set_drdy_mode_default (T : Transport S E) (st : DriverState S) :
    Outcome S E Unit :=
  let r3 := st.regs.reg3 &&& not8 (1 <<< 3)
  write_register T { st with regs := { st.regs with reg3 := r3 } }
    CONFIG_REG3_ADDRESS r3

/-- Embeds `set_drdy_mode_dout()`: `reg3 |= 1 << 3` (bit 3, as in the source). -/
def set_drdy_mode_dout (T : Transport S E) (st : DriverState S) :
    Outcome S E Unit :=
  let r3 := st.regs.reg3 ||| (1 <<< 3)
  write_register T { st with regs := { st.regs with reg3 := r3 } }
    CONFIG_REG3_ADDRESS r3

/-- Embeds `set_internal_reference()`: `reg2 &= !VREF_MASK; reg2 |= VREF_INT`. -/
def set_internal_reference (T : Transport S E) (st : DriverState S) :
    Outcome S E Unit :=
  let r2 := (st.regs.reg2 &&& not8 VREF_MASK) ||| VREF_INT
  write_register T { st with regs := { st.regs with reg2 := r2 } }
    CONFIG_REG2_ADDRESS r2

/-- Embeds `set_external_reference()`: `reg2 &= !VREF_MASK; reg2 |= VREF_EXT`. -/
def set_external_reference (T : Transport S E) (st : DriverState S) :
    Outcome S E Unit :=
  let r2 := (st.regs.reg2 &&& not8 VREF_MASK) ||| VREF_EXT
  write_register T { st with regs := { st.regs with reg2 := r2 } }
    CONFIG_REG2_ADDRESS r2

/-- Embeds `get_config_reg()`: read registers 0..3 in address order, storing each
into the cache as it arrives (an error aborts before the store), and
return the four bytes. -/
def get_config_reg (T : Transport S E) (st : DriverState S) :
    Outcome S E (List Nat) :=
  seq (read_register T st CONFIG_REG0_ADDRESS) (fun b0 st1 =>
  let st1 : DriverState S := { st1 with regs := { st1.regs with reg0 := b0 } }
  seq (read_register T st1 CONFIG_REG1_ADDRESS) (fun b1 st2 =>
  let st2 : DriverState S := { st2 with regs := { st2.regs with reg1 := b1 } }
  seq (read_register T st2 CONFIG_REG2_ADDRESS) (fun b2 st3 =>
  let st3 : DriverState S := { st3 with regs := { st3.regs with reg2 := b2 } }
  seq (read_register T st3 CONFIG_REG3_ADDRESS) (fun b3 st4 =>
  let st4 : DriverState S := { st4 with regs := { st4.regs with reg3 := b3 } }
  ⟨.ok [st4.regs.reg0, st4.regs.reg1, st4.regs.reg2, st4.regs.reg3], st4, []⟩))))

/-- The transaction `read_data_samples` issues: `[DelayNs(50), Read(buf)]`
with a 3-byte buffer and no command byte. -/
def sampleTxn : Txn := [.delayNs 50, .read 3]

/-- Embeds `read_data_samples()`: returns the 3-byte rx buffer (initialized to
zeros). -/
def read_data_samples (T : Transport S E) (st : DriverState S) :
    Outcome S E (List Nat) :=
  (runTxn T st sampleTxn).mapv
    (fun rx => [rx.getD 0 0 % 256, rx.getD 1 0 % 256, rx.getD 2 0 % 256])

/-- Reinterpret a u32 bit pattern as an i32 (`result as i32`). -/
def toI32 (n : Nat) : Int :=
  let m := n % 4294967296
  if m < 2147483648 then (m : Int) else (m : Int) - 4294967296

/-- Embeds `data_to_int(data)`: assemble the three bytes big-endian, then — as the
source is written — OR in 0xFF000000 when the top bit of `data[0]` is
ZERO, and reinterpret as i32. -/
def data_to_int (data : List Nat) : Int :=
  let d0 := data.getD 0 0 % 256
  let d1 := data.getD 1 0 % 256
  let d2 := data.getD 2 0 % 256
  let r1 := d0
  let r2 := (r1 <<< 8) ||| d1
  let r3 := (r2 <<< 8) ||| d2
  let r4 := if d0 &&& (1 <<< 7) == 0 then r3 ||| 0xFF000000 else r3
  toI32 r4

/-- Embeds `read_single_shot()`: start/sync command, then read and decode 3 raw
sample bytes. -/
def read_single_shot (T : Transport S E) (st : DriverState S) :
    Outcome S E Int :=
  seq (start_conv T st) (fun _ st1 =>
  (read_data_samples T st1).mapv (fun data => data_to_int data))

/-- Embeds `read_single_shot_single_ended(channels_conf)`: select the mux
channels, then `read_single_shot`. -/
def read_single_shot_single_ended (T : Transport S E) (st : DriverState S)
    (channels_conf : Nat) : Outcome S E Int :=
  seq (select_mux_channels T st channels_conf) (fun _ st1 =>
  read_single_shot T st1)

/-- Fill the rx bytes of a transaction with a constant byte. -/
def rxFill (b : Nat) (t : Txn) : List Nat := List.replicate (txnRxLen t) b

/-- A transport that never fails and answers every captured byte with the
constant `b` (in particular every register read returns `b`). -/
def constTransport (b : Nat) : Transport Unit Unit :=
  ⟨fun _ t => .ok (rxFill b t, ())⟩

/-- A transport that completes the first `k` transactions (counting them in
its device state, answering zero bytes) and fails every transaction after
that with the fixed opaque error `e`. -/
def failTransport (e : E) (k : Nat) : Transport Nat E :=
  ⟨fun n t => if n < k then .ok (rxFill 0 t, n + 1) else .error e⟩

/-- Returns `true` iff an `Except` is `ok` (models `Result::is_ok`). -/
def exceptOk : Except E α → Bool
  | .ok _ => true
  | .error _ => false

/-- Returns `true` iff a sub-operation transmits a command/value byte string. -/
def isWriteOp : BusOp → Bool
  | .write _ => true
  | _ => false

/-- Returns `true` iff a sub-operation is a full-duplex `Transfer` (the shape used
only by register reads). -/
def isTransferOp : BusOp → Bool
  | .transfer _ => true
  | _ => false

/-- The full transaction trace of a successful `begin`. -/
def beginTrace : List Txn :=
  [spiCmdTxn RESET, settleTxn,
   writeRegTxn CONFIG_REG0_ADDRESS 0x00,
   writeRegTxn CONFIG_REG1_ADDRESS 0x04,
   writeRegTxn CONFIG_REG2_ADDRESS 0x10,
   writeRegTxn CONFIG_REG3_ADDRESS 0x00]

theorem seq_err_lit (e : E) (st : DriverState S) (tr : List Txn)
    (f : α → DriverState S → Outcome S E β) :
    seq ⟨.error e, st, tr⟩ f = ⟨.error e, st, tr⟩ := rfl

theorem seq_ok_lit (a : α) (st : DriverState S) (tr : List Txn)
    (f : α → DriverState S → Outcome S E β) :
    seq ⟨.ok a, st, tr⟩ f
      = ⟨(f a st).res, (f a st).state, tr ++ (f a st).trace⟩ := rfl

theorem settle_run_ok (T : Transport S E) (st : DriverState S)
    (rx : List Nat) (s : S) (h : T.step st.dev settleTxn = .ok (rx, s)) :
    (runTxn T st settleTxn).mapv (fun _ => ())
      = (⟨.ok (), ⟨st.regs, s⟩, [settleTxn]⟩ : Outcome S E Unit) := by
  unfold Outcome.mapv runTxn
  rw [h]
  rfl

theorem settle_run_err (T : Transport S E) (st : DriverState S)
    (e : E) (h : T.step st.dev settleTxn = .error e) :
    (runTxn T st settleTxn).mapv (fun _ => ())
      = (⟨.error e, st, [settleTxn]⟩ : Outcome S E Unit) := by
  unfold Outcome.mapv runTxn
  rw [h]
  rfl

theorem write_register_trace (T : Transport S E) (st : DriverState S)
    (a v : Nat) : (write_register T st a v).trace = [writeRegTxn a v] := by
  unfold write_register Outcome.mapv runTxn
  rcases h : T.step st.dev (writeRegTxn a v) with e | ⟨rx, s⟩ <;> simp [h]

theorem read_register_trace (T : Transport S E) (st : DriverState S)
    (a : Nat) : (read_register T st a).trace = [readRegTxn a] := by
  unfold read_register Outcome.mapv runTxn
  rcases h : T.step st.dev (readRegTxn a) with e | ⟨rx, s⟩ <;> simp [h]

theorem writeRegTxn_ne_readRegTxn (x y a : Nat) :
    writeRegTxn x y ≠ readRegTxn a := by
  intro h
  simp [writeRegTxn, readRegTxn] at h

theorem spi_command_run_ok (T : Transport S E) (st : DriverState S)
    (d : Nat) (rx : List Nat) (s : S)
    (h : T.step st.dev (spiCmdTxn d) = .ok (rx, s)) :
    spi_command T st d = ⟨.ok (), ⟨st.regs, s⟩, [spiCmdTxn d]⟩ := by
  unfold spi_command Outcome.mapv runTxn
  rw [h]
  rfl

theorem spi_command_run_err (T : Transport S E) (st : DriverState S)
    (d : Nat) (e : E) (h : T.step st.dev (spiCmdTxn d) = .error e) :
    spi_command T st d = ⟨.error e, st, [spiCmdTxn d]⟩ := by
  unfold spi_command Outcome.mapv runTxn
  rw [h]
  rfl

theorem write_register_run_ok (T : Transport S E) (st : DriverState S)
    (a v : Nat) (rx : List Nat) (s : S)
    (h : T.step st.dev (writeRegTxn a v) = .ok (rx, s)) :
    write_register T st a v = ⟨.ok (), ⟨st.regs, s⟩, [writeRegTxn a v]⟩ := by
  unfold write_register Outcome.mapv runTxn
  rw [h]
  rfl

theorem write_register_run_err (T : Transport S E) (st : DriverState S)
    (a v : Nat) (e : E) (h : T.step st.dev (writeRegTxn a v) = .error e) :
    write_register T st a v = ⟨.error e, st, [writeRegTxn a v]⟩ := by
  unfold write_register Outcome.mapv runTxn
  rw [h]
  rfl

theorem read_data_samples_run_ok (T : Transport S E) (st : DriverState S)
    (rx : List Nat) (s : S) (h : T.step st.dev sampleTxn = .ok (rx, s)) :
    read_data_samples T st =
      ⟨.ok [rx.getD 0 0 % 256, rx.getD 1 0 % 256, rx.getD 2 0 % 256],
       ⟨st.regs, s⟩, [sampleTxn]⟩ := by
  unfold read_data_samples Outcome.mapv runTxn
  rw [h]
  rfl

theorem read_data_samples_run_err (T : Transport S E) (st : DriverState S)
    (e : E) (h : T.step st.dev sampleTxn = .error e) :
    read_data_samples T st = ⟨.error e, st, [sampleTxn]⟩ := by
  unfold read_data_samples Outcome.mapv runTxn
  rw [h]
  rfl

/-- C1: the claim states `data_to_int` decodes 3 bytes as a big-endian
24-bit two's-complement integer sign-extended to i32, with
`[0x00,0x00,0x00] ↦ 0`, `[0x7F,0xFF,0xFF] ↦ 8388607`,
`[0x80,0x00,0x00] ↦ -8388608`, `[0xFF,0xFF,0xFF] ↦ -1`. The source has the
sign-extension condition inverted (`== 0` where sign extension requires
the top bit to be set), so the code returns -16777216, -8388609, 8388608
and 16777215 on those four inputs instead. -/
theorem C1_data_to_int_sign_extension_inverted :
    data_to_int [0x00, 0x00, 0x00] = -16777216 ∧
    data_to_int [0x7F, 0xFF, 0xFF] = -8388609 ∧
    data_to_int [0x80, 0x00, 0x00] = 8388608 ∧
    data_to_int [0xFF, 0xFF, 0xFF] = 16777215 ∧
    (-16777216 : Int) ≠ 0 ∧ (-8388609 : Int) ≠ 8388607 ∧
    (8388608 : Int) ≠ -8388608 ∧ (16777215 : Int) ≠ -1 := by
  decide

/-- C2 counterexample: against a transport on which every register read
returns 0x5A, the PGA-gain setter with field code 2 (value `2 << 1 = 0x04`)
on a fresh handle issues no register-read transaction at all and writes
0x04 — computed from the all-zero cache — to register 0, not the claimed
`(0x5A & !PGA_MASK) | (2 << 1) = 0x54`. -/
theorem C2_counterexample_setter_reads_no_hardware :
    (set_pga_gain (constTransport 0x5A) (new ()) (2 <<< 1)).trace
      = [[BusOp.delayNs 50, BusOp.write [0x40], BusOp.transferInPlace [0x04]]] ∧
    ((set_pga_gain (constTransport 0x5A) (new ()) (2 <<< 1)).trace.flatten.any
        isTransferOp) = false ∧
    (0x04 : Nat) ≠ ((0x5A &&& not8 REG_CONFIG0_PGA_GAIN_MASK) ||| (2 <<< 1)) := by
  decide

/-- C2 amended: every configuration setter performs a cached
read-modify-write — it applies the field mutation to the driver's locally
cached register byte (not to a freshly read hardware byte), writes the
full resulting byte back, and issues no register-read transaction. In
particular the PGA-gain setter with field code 2 writes
`(cached_reg0 & !0x0E) | (2 << 1)` to register 0. -/
theorem C2_amended_setters_use_cached_byte (T : Transport S E)
    (st : DriverState S) (v : Nat) :
    (select_mux_channels T st v).trace = [writeRegTxn CONFIG_REG0_ADDRESS
      ((st.regs.reg0 &&& not8 REG_CONFIG0_MUX_MASK) ||| v % 256)] ∧
    (set_pga_gain T st v).trace = [writeRegTxn CONFIG_REG0_ADDRESS
      ((st.regs.reg0 &&& not8 REG_CONFIG0_PGA_GAIN_MASK) ||| v % 256)] ∧
    (pga_on T st).trace = [writeRegTxn CONFIG_REG0_ADDRESS
      (st.regs.reg0 &&& not8 (1 <<< 0))] ∧
    (pga_off T st).trace = [writeRegTxn CONFIG_REG0_ADDRESS
      (st.regs.reg0 ||| not8 (1 <<< 0))] ∧
    (set_data_rate T st v).trace = [writeRegTxn CONFIG_REG1_ADDRESS
      ((st.regs.reg1 &&& not8 REG_CONFIG1_DR_MASK) ||| v % 256)] ∧
    (set_operation_mode T st v).trace = [writeRegTxn CONFIG_REG1_ADDRESS
      ((st.regs.reg1 &&& not8 REG_CONFIG1_MODE_MASK) ||| v % 256)] ∧
    (set_conv_mode_single_shot T st).trace = [writeRegTxn CONFIG_REG1_ADDRESS
      (st.regs.reg1 ||| not8 (1 <<< 2))] ∧
    (set_conv_mode_continuous T st).trace = [writeRegTxn CONFIG_REG1_ADDRESS
      (st.regs.reg1 ||| (1 <<< 2))] ∧
    (temp_sensor_mode_disable T st).trace = [writeRegTxn CONFIG_REG1_ADDRESS
      (st.regs.reg1 &&& not8 (1 <<< 1))] ∧
    (temp_sensor_mode_enable T st).trace = [writeRegTxn CONFIG_REG1_ADDRESS
      (st.regs.reg1 ||| (1 <<< 1))] ∧
    (current_sources_off T st).trace = [writeRegTxn CONFIG_REG1_ADDRESS
      (st.regs.reg1 &&& not8 (1 <<< 0))] ∧
    (current_sources_on T st).trace = [writeRegTxn CONFIG_REG1_ADDRESS
      (st.regs.reg1 ||| (1 <<< 0))] ∧
    (set_vref T st v).trace = [writeRegTxn CONFIG_REG2_ADDRESS
      ((st.regs.reg2 &&& not8 REG_CONFIG2_VREF_MASK) ||| v % 256)] ∧
    (set_fir_filter T st v).trace = [writeRegTxn CONFIG_REG2_ADDRESS
      ((st.regs.reg2 &&& not8 REG_CONFIG2_FIR_MASK) ||| v % 256)] ∧
    (low_side_switch_open T st).trace = [writeRegTxn CONFIG_REG2_ADDRESS
      (st.regs.reg2 &&& not8 (1 <<< 3))] ∧
    (low_side_switch_closed T st).trace = [writeRegTxn CONFIG_REG2_ADDRESS
      (st.regs.reg2 ||| (1 <<< 3))] ∧
    (set_idac_current T st v).trace = [writeRegTxn CONFIG_REG2_ADDRESS
      ((st.regs.reg2 &&& not8 REG_CONFIG2_IDAC_CURRENT_MASK) ||| v % 256)] ∧
    (set_idac1_route T st v).trace = [writeRegTxn CONFIG_REG3_ADDRESS
      ((st.regs.reg3 &&& not8 REG_CONFIG3_IDAC1_ROUTING_MASK) ||| v % 256)] ∧
    (set_idac2_route T st v).trace = [writeRegTxn CONFIG_REG3_ADDRESS
      ((st.regs.reg3 &&& not8 REG_CONFIG3_IDAC2_ROUTING_MASK) ||| v % 256)] ∧
    (set_drdy_mode_default T st).trace = [writeRegTxn CONFIG_REG3_ADDRESS
      (st.regs.reg3 &&& not8 (1 <<< 3))] ∧
    (set_drdy_mode_dout T st).trace = [writeRegTxn CONFIG_REG3_ADDRESS
      (st.regs.reg3 ||| (1 <<< 3))] ∧
    (set_internal_reference T st).trace = [writeRegTxn CONFIG_REG2_ADDRESS
      ((st.regs.reg2 &&& not8 VREF_MASK) ||| VREF_INT)] ∧
    (set_external_reference T st).trace = [writeRegTxn CONFIG_REG2_ADDRESS
      ((st.regs.reg2 &&& not8 VREF_MASK) ||| VREF_EXT)] ∧
    (∀ x y a : Nat, writeRegTxn x y ≠ readRegTxn a) := by
  refine ⟨?_, ?_, ?_, ?_, ?_, ?_, ?_, ?_, ?_, ?_, ?_, ?_, ?_, ?_, ?_, ?_,
    ?_, ?_, ?_, ?_, ?_, ?_, ?_, writeRegTxn_ne_readRegTxn⟩
  all_goals apply write_register_trace

/-- C3: the claim states every setter changes only the bits of its target
field; the code violates this. `pga_off` (field: bit 0) ORs the cached
byte with `!(1 << 0) = 0xFE`, so from a 0x00 cache it writes 0xFE,
changing bits 1–7; `set_conv_mode_single_shot` (field: bit 2) ORs with
`!(1 << 2) = 0xFB`, writing 0xFB from a 0x00 cache; and
`set_data_rate(DR_45SPS = 0x02)` writes 0x02, setting bit 1, which lies
outside the data-rate field mask 0xE0 (bits 5–7). -/
theorem C3_setters_clobber_other_bits :
    (pga_off (constTransport 0) (new ())).trace
      = [writeRegTxn CONFIG_REG0_ADDRESS 0xFE] ∧
    ((0xFE ^^^ 0x00) &&& not8 (1 <<< 0)) ≠ 0 ∧
    (set_conv_mode_single_shot (constTransport 0) (new ())).trace
      = [writeRegTxn CONFIG_REG1_ADDRESS 0xFB] ∧
    ((0xFB ^^^ 0x00) &&& not8 (1 <<< 2)) ≠ 0 ∧
    (set_data_rate (constTransport 0) (new ()) DR_45SPS).trace
      = [writeRegTxn CONFIG_REG1_ADDRESS 0x02] ∧
    ((0x02 ^^^ 0x00) &&& not8 REG_CONFIG1_DR_MASK) ≠ 0 := by
  decide

/-- C6: the claim states the drdy-mode setters touch exactly bit 1 of
register 3. The code touches bit 3 instead (which lies inside the IDAC2
routing field, mask 0x1C): from a 0x00 cache `set_drdy_mode_dout` writes
0x08 (bit 1 clear, bit 3 set), and from a cache with bit 1 set (0x02)
`set_drdy_mode_default` writes 0x02, leaving bit 1 set. -/
theorem C6_drdy_mode_setters_touch_bit3 :
    (set_drdy_mode_dout (constTransport 0) (new ())).trace
      = [writeRegTxn CONFIG_REG3_ADDRESS 0x08] ∧
    0x08 &&& (1 <<< 1) = 0 ∧
    ((0x08 ^^^ 0x00) &&& not8 (1 <<< 1)) ≠ 0 ∧
    0x08 &&& REG_CONFIG3_IDAC2_ROUTING_MASK ≠ 0 ∧
    (set_drdy_mode_default (constTransport 0) ⟨⟨0x00, 0x00, 0x00, 0x02⟩, ()⟩).trace
      = [writeRegTxn CONFIG_REG3_ADDRESS 0x02] ∧
    0x02 &&& (1 <<< 1) ≠ 0 := by
  decide

/-- C9: every setter mutates the cached register byte before the bus write
is attempted: against a transport whose very first transaction fails with
an opaque error `e`, every setter returns exactly `e` while its cached
register byte already holds the new field value (the cache is not rolled
back and the other three cached bytes are untouched). -/
theorem C9_cache_mutated_before_failed_write (e : E) (r : Regs) (v : Nat) :
    (select_mux_channels (failTransport e 0) ⟨r, 0⟩ v).res = .error e ∧
    (select_mux_channels (failTransport e 0) ⟨r, 0⟩ v).state.regs
      = ⟨(r.reg0 &&& not8 REG_CONFIG0_MUX_MASK) ||| v % 256,
         r.reg1, r.reg2, r.reg3⟩ ∧
    (set_pga_gain (failTransport e 0) ⟨r, 0⟩ v).res = .error e ∧
    (set_pga_gain (failTransport e 0) ⟨r, 0⟩ v).state.regs
      = ⟨(r.reg0 &&& not8 REG_CONFIG0_PGA_GAIN_MASK) ||| v % 256,
         r.reg1, r.reg2, r.reg3⟩ ∧
    (pga_on (failTransport e 0) ⟨r, 0⟩).res = .error e ∧
    (pga_on (failTransport e 0) ⟨r, 0⟩).state.regs
      = ⟨r.reg0 &&& not8 (1 <<< 0), r.reg1, r.reg2, r.reg3⟩ ∧
    (pga_off (failTransport e 0) ⟨r, 0⟩).res = .error e ∧
    (pga_off (failTransport e 0) ⟨r, 0⟩).state.regs
      = ⟨r.reg0 ||| not8 (1 <<< 0), r.reg1, r.reg2, r.reg3⟩ ∧
    (set_data_rate (failTransport e 0) ⟨r, 0⟩ v).res = .error e ∧
    (set_data_rate (failTransport e 0) ⟨r, 0⟩ v).state.regs
      = ⟨r.reg0, (r.reg1 &&& not8 REG_CONFIG1_DR_MASK) ||| v % 256,
         r.reg2, r.reg3⟩ ∧
    (set_operation_mode (failTransport e 0) ⟨r, 0⟩ v).res = .error e ∧
    (set_operation_mode (failTransport e 0) ⟨r, 0⟩ v).state.regs
      = ⟨r.reg0, (r.reg1 &&& not8 REG_CONFIG1_MODE_MASK) ||| v % 256,
         r.reg2, r.reg3⟩ ∧
    (set_conv_mode_single_shot (failTransport e 0) ⟨r, 0⟩).res = .error e ∧
    (set_conv_mode_single_shot (failTransport e 0) ⟨r, 0⟩).state.regs
      = ⟨r.reg0, r.reg1 ||| not8 (1 <<< 2), r.reg2, r.reg3⟩ ∧
    (set_conv_mode_continuous (failTransport e 0) ⟨r, 0⟩).res = .error e ∧
    (set_conv_mode_continuous (failTransport e 0) ⟨r, 0⟩).state.regs
      = ⟨r.reg0, r.reg1 ||| (1 <<< 2), r.reg2, r.reg3⟩ ∧
    (temp_sensor_mode_disable (failTransport e 0) ⟨r, 0⟩).res = .error e ∧
    (temp_sensor_mode_disable (failTransport e 0) ⟨r, 0⟩).state.regs
      = ⟨r.reg0, r.reg1 &&& not8 (1 <<< 1), r.reg2, r.reg3⟩ ∧
    (temp_sensor_mode_enable (failTransport e 0) ⟨r, 0⟩).res = .error e ∧
    (temp_sensor_mode_enable (failTransport e 0) ⟨r, 0⟩).state.regs
      = ⟨r.reg0, r.reg1 ||| (1 <<< 1), r.reg2, r.reg3⟩ ∧
    (current_sources_off (failTransport e 0) ⟨r, 0⟩).res = .error e ∧
    (current_sources_off (failTransport e 0) ⟨r, 0⟩).state.regs
      = ⟨r.reg0, r.reg1 &&& not8 (1 <<< 0), r.reg2, r.reg3⟩ ∧
    (current_sources_on (failTransport e 0) ⟨r, 0⟩).res = .error e ∧
    (current_sources_on (failTransport e 0) ⟨r, 0⟩).state.regs
      = ⟨r.reg0, r.reg1 ||| (1 <<< 0), r.reg2, r.reg3⟩ ∧
    (set_vref (failTransport e 0) ⟨r, 0⟩ v).res = .error e ∧
    (set_vref (failTransport e 0) ⟨r, 0⟩ v).state.regs
      = ⟨r.reg0, r.reg1,
         (r.reg2 &&& not8 REG_CONFIG2_VREF_MASK) ||| v % 256, r.reg3⟩ ∧
    (set_fir_filter (failTransport e 0) ⟨r, 0⟩ v).res = .error e ∧
    (set_fir_filter (failTransport e 0) ⟨r, 0⟩ v).state.regs
      = ⟨r.reg0, r.reg1,
         (r.reg2 &&& not8 REG_CONFIG2_FIR_MASK) ||| v % 256, r.reg3⟩ ∧
    (low_side_switch_open (failTransport e 0) ⟨r, 0⟩).res = .error e ∧
    (low_side_switch_open (failTransport e 0) ⟨r, 0⟩).state.regs
      = ⟨r.reg0, r.reg1, r.reg2 &&& not8 (1 <<< 3), r.reg3⟩ ∧
    (low_side_switch_closed (failTransport e 0) ⟨r, 0⟩).res = .error e ∧
    (low_side_switch_closed (failTransport e 0) ⟨r, 0⟩).state.regs
      = ⟨r.reg0, r.reg1, r.reg2 ||| (1 <<< 3), r.reg3⟩ ∧
    (set_idac_current (failTransport e 0) ⟨r, 0⟩ v).res = .error e ∧
    (set_idac_current (failTransport e 0) ⟨r, 0⟩ v).state.regs
      = ⟨r.reg0, r.reg1,
         (r.reg2 &&& not8 REG_CONFIG2_IDAC_CURRENT_MASK) ||| v % 256, r.reg3⟩ ∧
    (set_idac1_route (failTransport e 0) ⟨r, 0⟩ v).res = .error e ∧
    (set_idac1_route (failTransport e 0) ⟨r, 0⟩ v).state.regs
      = ⟨r.reg0, r.reg1, r.reg2,
         (r.reg3 &&& not8 REG_CONFIG3_IDAC1_ROUTING_MASK) ||| v % 256⟩ ∧
    (set_idac2_route (failTransport e 0) ⟨r, 0⟩ v).res = .error e ∧
    (set_idac2_route (failTransport e 0) ⟨r, 0⟩ v).state.regs
      = ⟨r.reg0, r.reg1, r.reg2,
         (r.reg3 &&& not8 REG_CONFIG3_IDAC2_ROUTING_MASK) ||| v % 256⟩ ∧
    (set_drdy_mode_default (failTransport e 0) ⟨r, 0⟩).res = .error e ∧
    (set_drdy_mode_default (failTransport e 0) ⟨r, 0⟩).state.regs
      = ⟨r.reg0, r.reg1, r.reg2, r.reg3 &&& not8 (1 <<< 3)⟩ ∧
    (set_drdy_mode_dout (failTransport e 0) ⟨r, 0⟩).res = .error e ∧
    (set_drdy_mode_dout (failTransport e 0) ⟨r, 0⟩).state.regs
      = ⟨r.reg0, r.reg1, r.reg2, r.reg3 ||| (1 <<< 3)⟩ ∧
    (set_internal_reference (failTransport e 0) ⟨r, 0⟩).res = .error e ∧
    (set_internal_reference (failTransport e 0) ⟨r, 0⟩).state.regs
      = ⟨r.reg0, r.reg1, (r.reg2 &&& not8 VREF_MASK) ||| VREF_INT, r.reg3⟩ ∧
    (set_external_reference (failTransport e 0) ⟨r, 0⟩).res = .error e ∧
    (set_external_reference (failTransport e 0) ⟨r, 0⟩).state.regs
      = ⟨r.reg0, r.reg1, (r.reg2 &&& not8 VREF_MASK) ||| VREF_EXT, r.reg3⟩ := by
  repeat' apply And.intro
  all_goals rfl

/-- C10: a handle returned by `new(spi)` has all four cached register
bytes equal to 0x00, so a setter called before `begin` computes the byte
it writes from the all-zero cache: `set_data_rate(dr)` writes
`(0x00 & !DR_MASK) | dr` and `set_pga_gain(g)` writes
`(0x00 & !PGA_MASK) | g`, regardless of the device's actual power-on
register contents. -/
theorem C10_new_handle_zero_cache (T : Transport S E) (s : S) (dr g : Nat) :
    (new s).regs = ⟨0x00, 0x00, 0x00, 0x00⟩ ∧
    (set_data_rate T (new s) dr).trace = [writeRegTxn CONFIG_REG1_ADDRESS
      ((0x00 &&& not8 REG_CONFIG1_DR_MASK) ||| dr % 256)] ∧
    (set_pga_gain T (new s) g).trace = [writeRegTxn CONFIG_REG0_ADDRESS
      ((0x00 &&& not8 REG_CONFIG0_PGA_GAIN_MASK) ||| g % 256)] := by
  refine ⟨rfl, ?_, ?_⟩
  all_goals apply write_register_trace

/-- C5: `write_register(A, V)` issues one transaction of a ≥50 ns settle
delay, the single command byte `0x40 | (A << 2)`, then transmission of the
byte `V`; `read_register(A)` issues one transaction of a ≥50 ns settle
delay, the single command byte `0x20 | (A << 2)`, then a full-duplex
exchange transmitting the dummy byte 0xFF, and returns the byte captured
in that exchange. -/
theorem C5_register_transaction_protocol (T : Transport S E)
    (st : DriverState S) (A V : Nat) (hA : A < 4) (hV : V < 256) :
    (write_register T st A V).trace
      = [[BusOp.delayNs 50, BusOp.write [WREG ||| (A <<< 2)],
          BusOp.transferInPlace [V]]] ∧
    (read_register T st A).trace
      = [[BusOp.delayNs 50, BusOp.write [RREG ||| (A <<< 2)],
          BusOp.transfer [SPI_MASTER_DUMMY]]] ∧
    (∀ b s2, b < 256 → T.step st.dev (readRegTxn A) = .ok ([b], s2) →
      (read_register T st A).res = .ok b) ∧ 50 ≤ 50 := by
  have hA4 : A <<< 2 = A * 4 := by
    rw [Nat.shiftLeft_eq]
  have hA2 : (A <<< 2) % 256 = A <<< 2 := by
    rw [hA4]
    exact Nat.mod_eq_of_lt (by omega)
  have hV2 : V % 256 = V := Nat.mod_eq_of_lt hV
  refine ⟨?_, ?_, ?_, le_refl 50⟩
  · rw [write_register_trace]
    simp [writeRegTxn, hA2, hV2]
  · rw [read_register_trace]
    simp [readRegTxn, hA2]
  · intro b s2 hb hstep
    unfold read_register Outcome.mapv runTxn
    rw [hstep]
    simp [Except.map, Nat.mod_eq_of_lt hb]

/-- C5 witness: at address 1 and value 0xAB, against a transport answering
0x5A on every captured byte, the two transaction shapes are as claimed and
the register read returns the captured byte 0x5A. -/
theorem C5_register_transaction_protocol_witness :
    (write_register (constTransport 0x5A) (new ()) 1 0xAB).trace
      = [[BusOp.delayNs 50, BusOp.write [WREG ||| (1 <<< 2)],
          BusOp.transferInPlace [0xAB]]] ∧
    (read_register (constTransport 0x5A) (new ()) 1).res = .ok 0x5A :=
  ⟨(C5_register_transaction_protocol (constTransport 0x5A) (new ()) 1 0xAB
      (by decide) (by decide)).1,
   (C5_register_transaction_protocol (constTransport 0x5A) (new ()) 1 0xAB
      (by decide) (by decide)).2.2.1 0x5A () (by decide) rfl⟩

/-- C8: against a transport that completes its first `k` transactions and
then fails with an opaque error `e`, each driver operation returns exactly
`e` (no wrapping, classification or retry is possible since `E` is
abstract and `e` is the only error value available), its trace stops at
the failing transaction (a prefix of the successful trace: no further bus
operations), and the device-side effects of the `k` completed transactions
persist (the transport state still counts `k` completed transactions). -/
theorem C8_transport_error_propagates_verbatim (e : E) (r : Regs)
    (c v : Nat) :
    (∀ k, k < 6 → (begin (failTransport e k) ⟨r, 0⟩).res = .error e ∧
      (begin (failTransport e k) ⟨r, 0⟩).trace = beginTrace.take (k + 1) ∧
      (begin (failTransport e k) ⟨r, 0⟩).state.dev = k) ∧
    ((set_pga_gain (failTransport e 0) ⟨r, 0⟩ v).res = .error e ∧
      (set_pga_gain (failTransport e 0) ⟨r, 0⟩ v).trace.length = 1) ∧
    (∀ k, k < 2 → (read_single_shot (failTransport e k) ⟨r, 0⟩).res = .error e ∧
      (read_single_shot (failTransport e k) ⟨r, 0⟩).trace
        = [spiCmdTxn START, sampleTxn].take (k + 1) ∧
      (read_single_shot (failTransport e k) ⟨r, 0⟩).state.dev = k) ∧
    (∀ k, k < 3 →
      (read_single_shot_single_ended (failTransport e k) ⟨r, 0⟩ c).res = .error e ∧
      (read_single_shot_single_ended (failTransport e k) ⟨r, 0⟩ c).trace
        = [writeRegTxn CONFIG_REG0_ADDRESS
             ((r.reg0 &&& not8 REG_CONFIG0_MUX_MASK) ||| c % 256),
           spiCmdTxn START, sampleTxn].take (k + 1)) ∧
    (∀ k, k < 4 → (get_config_reg (failTransport e k) ⟨r, 0⟩).res = .error e ∧
      (get_config_reg (failTransport e k) ⟨r, 0⟩).trace
        = [readRegTxn CONFIG_REG0_ADDRESS, readRegTxn CONFIG_REG1_ADDRESS,
           readRegTxn CONFIG_REG2_ADDRESS,
           readRegTxn CONFIG_REG3_ADDRESS].take (k + 1)) := by
  refine ⟨?_, ⟨rfl, rfl⟩, ?_, ?_, ?_⟩
  · intro k hk
    interval_cases k
    all_goals exact ⟨rfl, rfl, rfl⟩
  · intro k hk
    interval_cases k
    all_goals exact ⟨rfl, rfl, rfl⟩
  · intro k hk
    interval_cases k
    all_goals exact ⟨rfl, rfl⟩
  · intro k hk
    interval_cases k
    all_goals exact ⟨rfl, rfl⟩

/-- C8 witness: with `E = Unit`, `e = ()` and the third transaction of
`begin` failing, `begin` returns the error, its trace is the three-element
prefix, and the two completed transactions persist in the transport
state. -/
theorem C8_transport_error_propagates_verbatim_witness :
    (begin (failTransport () 2) ⟨⟨0, 0, 0, 0⟩, 0⟩).res = .error () ∧
    (begin (failTransport () 2) ⟨⟨0, 0, 0, 0⟩, 0⟩).trace = beginTrace.take 3 ∧
    (begin (failTransport () 2) ⟨⟨0, 0, 0, 0⟩, 0⟩).state.dev = 2 :=
  (C8_transport_error_propagates_verbatim () ⟨0, 0, 0, 0⟩ 0 0).1 2 (by decide)

theorem begin_trace_take (T : Transport S E) (st : DriverState S) :
    ∃ n, n ≤ 6 ∧ (begin T st).trace = beginTrace.take n ∧
      (exceptOk (begin T st).res = true → n = 6) := by
  unfold begin reset
  rcases h1 : T.step st.dev (spiCmdTxn RESET) with e1 | ⟨rx1, s1⟩
  · rw [spi_command_run_err T st RESET e1 h1, seq_err_lit]
    exact ⟨1, by omega, rfl, by simp [exceptOk]⟩
  · rw [spi_command_run_ok T st RESET rx1 s1 h1, seq_ok_lit]
    dsimp only
    rcases h2 : T.step s1 settleTxn with e2 | ⟨rx2, s2⟩
    · rw [settle_run_err T ⟨st.regs, s1⟩ e2 h2, seq_err_lit]
      exact ⟨2, by omega, rfl, by simp [exceptOk]⟩
    · rw [settle_run_ok T ⟨st.regs, s1⟩ rx2 s2 h2, seq_ok_lit]
      dsimp only
      rcases h3 : T.step s2 (writeRegTxn CONFIG_REG0_ADDRESS 0x00)
        with e3 | ⟨rx3, s3⟩
      · rw [write_register_run_err T ⟨⟨0x00, 0x04, 0x10, 0x00⟩, s2⟩
          CONFIG_REG0_ADDRESS 0x00 e3 h3, seq_err_lit]
        exact ⟨3, by omega, rfl, by simp [exceptOk]⟩
      · rw [write_register_run_ok T ⟨⟨0x00, 0x04, 0x10, 0x00⟩, s2⟩
          CONFIG_REG0_ADDRESS 0x00 rx3 s3 h3, seq_ok_lit]
        dsimp only
        rcases h4 : T.step s3 (writeRegTxn CONFIG_REG1_ADDRESS 0x04)
          with e4 | ⟨rx4, s4⟩
        · rw [write_register_run_err T ⟨⟨0x00, 0x04, 0x10, 0x00⟩, s3⟩
            CONFIG_REG1_ADDRESS 0x04 e4 h4, seq_err_lit]
          exact ⟨4, by omega, rfl, by simp [exceptOk]⟩
        · rw [write_register_run_ok T ⟨⟨0x00, 0x04, 0x10, 0x00⟩, s3⟩
            CONFIG_REG1_ADDRESS 0x04 rx4 s4 h4, seq_ok_lit]
          dsimp only
          rcases h5 : T.step s4 (writeRegTxn CONFIG_REG2_ADDRESS 0x10)
            with e5 | ⟨rx5, s5⟩
          · rw [write_register_run_err T ⟨⟨0x00, 0x04, 0x10, 0x00⟩, s4⟩
              CONFIG_REG2_ADDRESS 0x10 e5 h5, seq_err_lit]
            exact ⟨5, by omega, rfl, by simp [exceptOk]⟩
          · rw [write_register_run_ok T ⟨⟨0x00, 0x04, 0x10, 0x00⟩, s4⟩
              CONFIG_REG2_ADDRESS 0x10 rx5 s5 h5, seq_ok_lit]
            dsimp only
            rcases h6 : T.step s5 (writeRegTxn CONFIG_REG3_ADDRESS 0x00)
              with e6 | ⟨rx6, s6⟩
            · rw [write_register_run_err T ⟨⟨0x00, 0x04, 0x10, 0x00⟩, s5⟩
                CONFIG_REG3_ADDRESS 0x00 e6 h6]
              exact ⟨6, by omega, rfl, by simp [exceptOk]⟩
            · rw [write_register_run_ok T ⟨⟨0x00, 0x04, 0x10, 0x00⟩, s5⟩
                CONFIG_REG3_ADDRESS 0x00 rx6 s6 h6]
              exact ⟨6, by omega, rfl, fun _ => rfl⟩

/-- C4: `begin` issues, in order: the reset command byte 0x06, a 50000 ns
(= 50 µs) wait, then writes of 0x00, 0x04, 0x10, 0x00 to registers 0–3;
its trace is always a prefix of that six-transaction sequence (any failing
step stops the sequence: nothing past the failing transaction is issued),
and on success it is exactly that sequence. -/
theorem C4_begin_reset_wait_then_defaults (T : Transport S E)
    (st : DriverState S) :
    (begin T st).trace = beginTrace.take (begin T st).trace.length ∧
    (exceptOk (begin T st).res = true → (begin T st).trace = beginTrace) ∧
    beginTrace
      = [[BusOp.delayNs 50, BusOp.write [0x06]], [BusOp.delayNs 50000],
         [BusOp.delayNs 50, BusOp.write [0x40], BusOp.transferInPlace [0x00]],
         [BusOp.delayNs 50, BusOp.write [0x44], BusOp.transferInPlace [0x04]],
         [BusOp.delayNs 50, BusOp.write [0x48], BusOp.transferInPlace [0x10]],
         [BusOp.delayNs 50, BusOp.write [0x4C], BusOp.transferInPlace [0x00]]] ∧
    50 * 1000 ≤ 50000 := by
  obtain ⟨n, hn, htr, hok⟩ := begin_trace_take T st
  refine ⟨?_, ?_, by decide, by decide⟩
  · rw [htr, List.length_take]
    have h6 : beginTrace.length = 6 := rfl
    rw [h6]
    have hmin : min n 6 = n := Nat.min_eq_left hn
    rw [hmin]
  · intro h
    rw [htr, hok h]
    rfl

/-- C4 witness: against a transport that never fails, `begin` succeeds and
its trace is exactly the six-transaction sequence. -/
theorem C4_begin_reset_wait_then_defaults_witness :
    (begin (constTransport 0x00) (new ())).trace = beginTrace :=
  (C4_begin_reset_wait_then_defaults (constTransport 0x00) (new ())).2.1
    (by decide)

/-- C7: in every successful run of `read_single_shot_single_ended`, the
write of the mux field to register 0 occurs strictly before the
start/sync command byte 0x08; and `read_single_shot` issues the
start/sync command and then immediately a single 3-byte read transaction
containing no command byte (and no wait-for-data-ready polling exists
anywhere in the trace: its transactions contain only the fixed settle
delays shown). -/
theorem C7_mux_write_before_start_sync (T : Transport S E)
    (st : DriverState S) (c : Nat) :
    (exceptOk (read_single_shot_single_ended T st c).res = true →
      (read_single_shot_single_ended T st c).trace
        = [writeRegTxn CONFIG_REG0_ADDRESS
             ((st.regs.reg0 &&& not8 REG_CONFIG0_MUX_MASK) ||| c % 256),
           spiCmdTxn START, sampleTxn]) ∧
    (exceptOk (read_single_shot T st).res = true →
      (read_single_shot T st).trace = [spiCmdTxn START, sampleTxn]) ∧
    spiCmdTxn START = [BusOp.delayNs 50, BusOp.write [0x08]] ∧
    sampleTxn = [BusOp.delayNs 50, BusOp.read 3] ∧
    sampleTxn.any isWriteOp = false := by
  refine ⟨?_, ?_, rfl, rfl, by decide⟩
  · unfold read_single_shot_single_ended select_mux_channels
    dsimp only
    rcases h1 : T.step st.dev (writeRegTxn CONFIG_REG0_ADDRESS
        ((st.regs.reg0 &&& not8 REG_CONFIG0_MUX_MASK) ||| c % 256))
      with e1 | ⟨rx1, s1⟩
    · rw [write_register_run_err T
        ⟨⟨(st.regs.reg0 &&& not8 REG_CONFIG0_MUX_MASK) ||| c % 256,
          st.regs.reg1, st.regs.reg2, st.regs.reg3⟩, st.dev⟩
        CONFIG_REG0_ADDRESS
        ((st.regs.reg0 &&& not8 REG_CONFIG0_MUX_MASK) ||| c % 256) e1 h1,
        seq_err_lit]
      simp [exceptOk]
    · rw [write_register_run_ok T
        ⟨⟨(st.regs.reg0 &&& not8 REG_CONFIG0_MUX_MASK) ||| c % 256,
          st.regs.reg1, st.regs.reg2, st.regs.reg3⟩, st.dev⟩
        CONFIG_REG0_ADDRESS
        ((st.regs.reg0 &&& not8 REG_CONFIG0_MUX_MASK) ||| c % 256) rx1 s1 h1,
        seq_ok_lit]
      dsimp only
      unfold read_single_shot start_conv
      rcases h2 : T.step s1 (spiCmdTxn START) with e2 | ⟨rx2, s2⟩
      · rw [spi_command_run_err T
          ⟨⟨(st.regs.reg0 &&& not8 REG_CONFIG0_MUX_MASK) ||| c % 256,
            st.regs.reg1, st.regs.reg2, st.regs.reg3⟩, s1⟩ START e2 h2,
          seq_err_lit]
        simp [exceptOk]
      · rw [spi_command_run_ok T
          ⟨⟨(st.regs.reg0 &&& not8 REG_CONFIG0_MUX_MASK) ||| c % 256,
            st.regs.reg1, st.regs.reg2, st.regs.reg3⟩, s1⟩ START rx2 s2 h2,
          seq_ok_lit]
        dsimp only
        rcases h3 : T.step s2 sampleTxn with e3 | ⟨rx3, s3⟩
        · rw [read_data_samples_run_err T
            ⟨⟨(st.regs.reg0 &&& not8 REG_CONFIG0_MUX_MASK) ||| c % 256,
              st.regs.reg1, st.regs.reg2, st.regs.reg3⟩, s2⟩ e3 h3]
          simp [exceptOk, Outcome.mapv]
        · rw [read_data_samples_run_ok T
            ⟨⟨(st.regs.reg0 &&& not8 REG_CONFIG0_MUX_MASK) ||| c % 256,
              st.regs.reg1, st.regs.reg2, st.regs.reg3⟩, s2⟩ rx3 s3 h3]
          intro _
          rfl
  · unfold read_single_shot start_conv
    rcases h1 : T.step st.dev (spiCmdTxn START) with e1 | ⟨rx1, s1⟩
    · rw [spi_command_run_err T st START e1 h1, seq_err_lit]
      simp [exceptOk]
    · rw [spi_command_run_ok T st START rx1 s1 h1, seq_ok_lit]
      dsimp only
      rcases h2 : T.step s1 sampleTxn with e2 | ⟨rx2, s2⟩
      · rw [read_data_samples_run_err T ⟨st.regs, s1⟩ e2 h2]
        simp [exceptOk, Outcome.mapv]
      · rw [read_data_samples_run_ok T ⟨st.regs, s1⟩ rx2 s2 h2]
        intro _
        rfl

/-- C7 witness: against a transport that never fails, reading single-ended
channel configuration 0x80 issues the mux write, then the start/sync
command, then the 3-byte sample read, in that order. -/
theorem C7_mux_write_before_start_sync_witness :
    (read_single_shot_single_ended (constTransport 0x00) (new ()) 0x80).trace
      = [writeRegTxn CONFIG_REG0_ADDRESS 0x80, spiCmdTxn START, sampleTxn] :=
  (C7_mux_write_before_start_sync (constTransport 0x00) (new ()) 0x80).1
    (by decide)

end ADS1220
